import Mathlib

/-!
Verification of the Spend backend server (`src/server.js`), a SimpleFIN
proxy.  The JavaScript source is shallowly embedded: each Express route
handler becomes a pure Lean function from the relevant configuration, the
in-memory credential slot (`accessUrl`), and oracles for the network calls
(`claimSetupToken`, `fetchSimpleFINData`) to the new credential slot and an
HTTP response.  JSON objects are embedded as association lists of string
keys, so that field names are part of the model.  JavaScript truthiness on
strings (where the empty string is falsy) and on numbers (where `0` is
falsy) is modelled explicitly.
-/

namespace Spend

/-- JSON values, as produced by the server's responses. -/
inductive JVal where
  | null
  | str (s : String)
  | int (n : Int)
  | bool (b : Bool)
  | obj (fields : List (String × JVal))
  | arr (elems : List JVal)

/-- JavaScript string truthiness: `undefined`/`null` and `""` are falsy. -/
def optFalsy : Option String → Bool
  | none => true
  | some s => s.isEmpty

/-- JavaScript `a || b` on an optional string `a` (falsy falls through). -/
def jsOr (a : Option String) (b : String) : String :=
  match a with
  | some s => if s.isEmpty then b else s
  | none => b

/-- Model of JavaScript `String.prototype.toLowerCase` on ASCII input:
lowercases each character of the string. -/
def jsToLower (s : String) : String :=
  ⟨s.data.map Char.toLower⟩

/-- Model of `desc.match(/a|b|.../)` being non-null, for the literal-only
alternations used in `categorizeTransaction`: some literal of the
alternation occurs as a substring of `desc`. -/
def containsStr (lit desc : String) : Bool :=
  decide (lit.data <:+: desc.data)

/-- `desc` matches the alternation of the literals `lits`. -/
def matchesAny (lits : List String) (desc : String) : Bool :=
  lits.any (fun l => containsStr l desc)

/-- Literals of the Food and Drink regex (server.js line 227). -/
def foodLits : List String :=
  ["starbucks", "coffee", "mcdonald", "burger", "pizza", "restaurant",
   "cafe", "diner", "taco", "subway", "chipotle", "wendy", "chick-fil",
   "dunkin", "grubhub", "doordash", "uber eat", "postmate"]

/-- Literals of the Shops regex (server.js line 230). -/
def shopsLits : List String :=
  ["walmart", "target", "amazon", "costco", "kroger", "safeway",
   "whole foods", "trader joe", "grocery", "market"]

/-- Literals of the Travel regex (server.js line 233). -/
def travelLits : List String :=
  ["uber", "lyft", "gas", "shell", "chevron", "exxon", "bp", "parking",
   "transit", "metro"]

/-- Literals of the Recreation regex (server.js line 236). -/
def recreationLits : List String :=
  ["netflix", "spotify", "hulu", "disney", "hbo", "youtube", "apple music",
   "gaming", "steam", "playstation", "xbox"]

/-- Literals of the Service regex (server.js line 239). -/
def serviceLits : List String :=
  ["electric", "water", "gas", "internet", "phone", "verizon", "at&t",
   "t-mobile", "comcast", "utility"]

/-- Literals of the Transfer regex (server.js line 242). -/
def transferLits : List String :=
  ["transfer", "zelle", "venmo", "paypal", "cash app"]

/-- Literals of the Payment regex (server.js line 245). -/
def paymentLits : List String :=
  ["payment", "thank you"]

/-- `categorizeTransaction` (server.js lines 224-250): lowercases the
description and walks the fixed chain of keyword regexes, returning the
label of the first that matches, `["Other"]` otherwise. -/
def categorizeTransaction (description : String) : List String :=
  let desc := jsToLower description
  if matchesAny foodLits desc then ["Food and Drink"]
  else if matchesAny shopsLits desc then ["Shops"]
  else if matchesAny travelLits desc then ["Travel"]
  else if matchesAny recreationLits desc then ["Recreation"]
  else if matchesAny serviceLits desc then ["Service"]
  else if matchesAny transferLits desc then ["Transfer"]
  else if matchesAny paymentLits desc then ["Payment"]
  else ["Other"]

/-- The keyword groups in the spec's priority order, as label/pattern
pairs (spec §4.3). -/
def categoryGroups : List (String × List String) :=
  [("Food and Drink", foodLits), ("Shops", shopsLits), ("Travel", travelLits),
   ("Recreation", recreationLits), ("Service", serviceLits),
   ("Transfer", transferLits), ("Payment", paymentLits)]

/-- First-match-wins evaluation of an ordered group list, with a default
label (spec §4.3's description of the categorizer). -/
def firstMatchLabel (groups : List (String × List String)) (desc : String)
    (dflt : String) : String :=
  match groups with
  | [] => dflt
  | (label, lits) :: rest =>
      if matchesAny lits desc then label else firstMatchLabel rest desc dflt

/-- The categorizer as the spec words it: lowercase, then first matching
group's label, `"Other"` as fallback, wrapped in a singleton list. -/
def specCategorize (description : String) : List String :=
  [firstMatchLabel categoryGroups (jsToLower description) "Other"]

/-- A transaction as SimpleFIN reports it inside an account object.
`description`, `payee` and `pending` may be absent (`none`); `amount` is a
signed number (negative for debits in SimpleFIN's convention); `posted` is
a Unix timestamp in seconds. -/
structure SFTx where
  id : String
  description : Option String
  payee : Option String
  amount : Int
  posted : Nat
  pending : Option Bool

/-- An account as SimpleFIN reports it.  `orgName` models `acc.org?.name`
(absent when either `org` or `org.name` is missing); `transactions` is
absent on responses without a transaction listing. -/
structure SFAccount where
  id : String
  name : String
  balance : Int
  available_balance : Option Int
  type : Option String
  orgName : Option String
  transactions : Option (List SFTx)

/-- The server's normalized transaction shape (server.js lines 198-207).
`date` holds the calendar-day value of the emitted ISO date string
`new Date(tx.posted * 1000).toISOString().split('T')[0]`, i.e. the number
of whole days since the epoch; both producing the string and re-parsing it
in the sort comparator are monotone images of this value. -/
structure Tx where
  id : String
  account_id : String
  name : String
  merchant_name : Option String
  amount : Int
  date : Nat
  category : List String
  pending : Bool

/-- JavaScript `a || b` on an optional number (`0` is falsy). -/
def jsOrNum (a : Option Int) (b : Int) : Int :=
  match a with
  | some n => if n = 0 then b else n
  | none => b

/-- JavaScript `a || null` on an optional string (`""` becomes `null`). -/
def jsOrNull (a : Option String) : Option String :=
  match a with
  | some s => if s.isEmpty then none else some s
  | none => none

/-- The per-transaction normalization of server.js lines 198-207, applied
to a transaction of the account with id `accountId`. -/
def normTx (accountId : String) (tx : SFTx) : Tx :=
  { id := tx.id
    account_id := accountId
    name := jsOr tx.description (jsOr tx.payee "Unknown")
    merchant_name := jsOrNull tx.payee
    amount := -tx.amount
    date := tx.posted / 86400
    category := categorizeTransaction (jsOr tx.description (jsOr tx.payee ""))
    pending := tx.pending.getD false }

/-- JavaScript `id.slice(-4)`: the last four characters (the whole string
when shorter). -/
def sliceLast4 (s : String) : String :=
  ⟨s.data.drop (s.data.length - 4)⟩

/-- The account normalization of server.js lines 150-160, as the field
list of the emitted JSON object (so field names are part of the model). -/
def normalizeAccount (acc : SFAccount) : List (String × JVal) :=
  [("id", .str acc.id),
   ("name", .str acc.name),
   ("mask", .str (sliceLast4 acc.id)),
   ("balances", .obj
     [("current", .int acc.balance),
      ("available", .int (jsOrNum acc.available_balance acc.balance))]),
   ("type", .str (jsOr acc.type "checking")),
   ("institution", .str (jsOr acc.orgName "Unknown"))]

/-- One iteration of the flattening loop of server.js lines 196-210: an
account with a `transactions` field appends its normalized transactions to
the accumulator; an account without one contributes nothing. -/
def flattenStep (allTransactions : List Tx) (account : SFAccount) : List Tx :=
  match account.transactions with
  | some txs => allTransactions ++ txs.map (normTx account.id)
  | none => allTransactions

/-- The flattening loop of server.js lines 194-210: accounts are walked in
order, starting from the empty accumulator. -/
def flattenTransactions (accounts : List SFAccount) : List Tx :=
  accounts.foldl flattenStep []

/-- The sort of server.js line 213: `(a, b) => new Date(b.date) - new
Date(a.date)`, a comparison sort placing `a` before `b` when `a`'s date is
the later one; modelled as a merge sort with that ordering. -/
def sortTransactions (l : List Tx) : List Tx :=
  l.mergeSort (fun a b => decide (b.date ≤ a.date))

/-- The transaction list emitted by GET /api/transactions for provider
accounts `accounts`: flatten, then sort by date descending. -/
def transactionsPipeline (accounts : List SFAccount) : List Tx :=
  sortTransactions (flattenTransactions accounts)

/-- An HTTP response of the server: status code and JSON body. -/
structure HttpResp where
  status : Nat
  body : JVal

/-- Environment configuration: `SIMPLEFIN_SETUP_TOKEN` (absent when the
variable is not set). -/
structure Config where
  setupToken : Option String

/-- The body of a normalized transaction as JSON. -/
def txToJVal (t : Tx) : JVal :=
  .obj
    [("id", .str t.id),
     ("account_id", .str t.account_id),
     ("name", .str t.name),
     ("merchant_name",
       match t.merchant_name with
       | some s => .str s
       | none => .null),
     ("amount", .int t.amount),
     ("date", .int (t.date : Int)),
     ("category", .arr (t.category.map .str)),
     ("pending", .bool t.pending)]

/-- POST /api/disconnect (server.js lines 253-257): unconditionally clears
the credential slot and answers 200 `{success: true}`.  The state argument
is the current `accessUrl`. -/
def disconnectHandler (_st : Option String) : Option String × HttpResp :=
  (none, ⟨200, .obj [("success", .bool true)]⟩)

/-- POST /api/connect (server.js lines 106-127).  `bodyToken` is
`req.body.setup_token`; `claimResult` is the value returned by
`claimSetupToken` (`none` when the claim failed and the helper returned
`null`); `st` is the current `accessUrl`. -/
def connectHandler (cfg : Config) (bodyToken : Option String)
    (claimResult : Option String) (st : Option String) :
    Option String × HttpResp :=
  let setupToken : Option String :=
    match bodyToken with
    | some s => if s.isEmpty then cfg.setupToken else some s
    | none => cfg.setupToken
  if optFalsy setupToken then
    (st, ⟨400, .obj [("error", .str "No setup token provided")]⟩)
  else if optFalsy claimResult then
    (st, ⟨500, .obj [("error", .str "Failed to claim token")]⟩)
  else
    (claimResult, ⟨200, .obj [("success", .bool true)]⟩)

/-- The auto-connect preamble shared by GET /api/accounts and GET
/api/transactions (server.js lines 137-140 and 173-176): when the held
credential is falsy and a setup token is configured (truthy), the claim
result — even a failed one — is written into the slot. -/
def autoConnect (cfg : Config) (claimResult : Option String)
    (st : Option String) : Option String :=
  if optFalsy st ∧ !optFalsy cfg.setupToken then claimResult else st

/-- GET /api/accounts (server.js lines 135-168).  `fetchResult` is the
outcome of `fetchSimpleFINData` (`none` when it threw). -/
def getAccountsHandler (cfg : Config) (claimResult : Option String)
    (fetchResult : Option (List SFAccount)) (st : Option String) :
    Option String × HttpResp :=
  let st1 := autoConnect cfg claimResult st
  if optFalsy st1 then
    (st1, ⟨400, .obj [("error", .str "Not connected. Call /api/connect first.")]⟩)
  else
    match fetchResult with
    | none => (st1, ⟨500, .obj [("error", .str "Failed to fetch accounts")]⟩)
    | some accounts =>
        (st1, ⟨200, .obj
          [("accounts", .arr (accounts.map (fun a => .obj (normalizeAccount a))))]⟩)

/-- GET /api/transactions (server.js lines 171-221). -/
def getTransactionsHandler (cfg : Config) (claimResult : Option String)
    (fetchResult : Option (List SFAccount)) (st : Option String) :
    Option String × HttpResp :=
  let st1 := autoConnect cfg claimResult st
  if optFalsy st1 then
    (st1, ⟨400, .obj [("error", .str "Not connected. Call /api/connect first.")]⟩)
  else
    match fetchResult with
    | none => (st1, ⟨500, .obj [("error", .str "Failed to fetch transactions")]⟩)
    | some accounts =>
        (st1, ⟨200, .obj
          [("transactions", .arr ((transactionsPipeline accounts).map txToJVal))]⟩)

/-- POST /api/exchange-token (server.js lines 267-272). -/
def exchangeTokenHandler (cfg : Config) (claimResult : Option String)
    (st : Option String) : Option String × HttpResp :=
  let st1 :=
    if !optFalsy cfg.setupToken ∧ optFalsy st then claimResult else st
  (st1, ⟨200, .obj [("success", .bool (!optFalsy st1))]⟩)

/-- The key list of a JSON object (empty for non-objects). -/
def objKeys : JVal → List String
  | .obj fields => fields.map Prod.fst
  | _ => []

/-- A default transaction, used only as the out-of-range fallback of
`List.getD` in index-based statements. -/
def dummyTx : Tx :=
  { id := "", account_id := "", name := "", merchant_name := none,
    amount := 0, date := 0, category := [], pending := false }

/-- A concrete debit as SimpleFIN would report it (negative amount). -/
def sampleDebit : SFTx :=
  { id := "t1", description := some "taco stand", payee := none,
    amount := -5, posted := 86400, pending := none }

/-- A concrete SimpleFIN response used by index-based witnesses: one
account holding two transactions posted on different days. -/
def sampleAccounts : List SFAccount :=
  [{ id := "act-0001", name := "Checking", balance := 100,
     available_balance := none, type := none, orgName := none,
     transactions := some
       [sampleDebit,
        { id := "t2", description := some "gas station", payee := none,
          amount := -7, posted := 200000, pending := none }] }]

theorem char_toLower_toLower (c : Char) :
    Char.toLower (Char.toLower c) = Char.toLower c := by
  unfold Char.toLower
  by_cases h : Char.toNat c ≥ 65 ∧ Char.toNat c ≤ 90
  · rw [if_pos h]
    have hv : (Char.toNat c + 32).isValidChar := by
      apply Or.inl
      omega
    have ht : (Char.ofNat (Char.toNat c + 32)).toNat = Char.toNat c + 32 := by
      simp only [Char.ofNat, dif_pos hv]
      rfl
    rw [ht, if_neg (by omega)]
  · rw [if_neg h, if_neg h]

theorem jsToLower_idem (s : String) : jsToLower (jsToLower s) = jsToLower s := by
  unfold jsToLower
  simp [List.map_map, Function.comp_def, char_toLower_toLower]

/-- C2: `categorizeTransaction` lowercases its input and tests it against
the keyword groups in the fixed priority order Food and Drink, Shops,
Travel, Recreation, Service, Transfer, Payment, returning the label of the
first matching group, `["Other"]` when none matches, and the result always
has exactly one element. -/
theorem categorizeTransaction_spec (s : String) :
    categorizeTransaction s = specCategorize s ∧
    (categorizeTransaction s).length = 1 := by
  refine ⟨?_, ?_⟩
  · simp only [categorizeTransaction, specCategorize, categoryGroups,
      firstMatchLabel]
    split_ifs <;> rfl
  · simp only [categorizeTransaction]
    split_ifs <;> rfl

/-- C5: `categorizeTransaction` is pure and deterministic (two calls on the
same string agree) and case-insensitive (it agrees with its value on the
lowercased input). -/
theorem categorizeTransaction_pure_caseInsensitive (s : String) :
    categorizeTransaction s = categorizeTransaction s ∧
    categorizeTransaction s = categorizeTransaction (jsToLower s) := by
  refine ⟨rfl, ?_⟩
  simp only [categorizeTransaction, jsToLower_idem]

/-- C1 counterexample: "taco gas" contains "gas" (already lowercase) but is
categorized as Food and Drink, not Travel, because the Food and Drink group
is tested first. -/
theorem gas_always_travel_counterexample :
    containsStr "gas" (jsToLower "taco gas") = true ∧
    categorizeTransaction "taco gas" ≠ ["Travel"] := by
  constructor
  · decide
  · decide

/-- C1 amended: a description whose lowercased form contains "gas" is never
categorized as Service (the Travel group, tested earlier, also matches), and
is categorized as Travel unless one of the two earlier groups (Food and
Drink, Shops) matches. -/
theorem gas_never_service (s : String)
    (h : containsStr "gas" (jsToLower s) = true) :
    categorizeTransaction s ≠ ["Service"] ∧
    (categorizeTransaction s = ["Food and Drink"] ∨
     categorizeTransaction s = ["Shops"] ∨
     categorizeTransaction s = ["Travel"]) := by
  have htravel : matchesAny travelLits (jsToLower s) = true := by
    unfold matchesAny
    rw [List.any_eq_true]
    exact ⟨"gas", by decide, h⟩
  simp only [categorizeTransaction]
  by_cases h1 : matchesAny foodLits (jsToLower s)
  · rw [if_pos h1]; decide
  · rw [if_neg h1]
    by_cases h2 : matchesAny shopsLits (jsToLower s)
    · rw [if_pos h2]; decide
    · rw [if_neg h2, if_pos htravel]; decide

/-- C3 counterexample: POST /api/disconnect with no credential held
answers 200, not the claimed 400. -/
theorem disconnect_notConnected_counterexample :
    (disconnectHandler none).2.status ≠ 400 := by
  decide

/-- C3 amended: a second disconnect in a row is safe and does not throw:
the handler is a total function that leaves the slot cleared and answers
200 `{success: true}` unconditionally — it never reports NotConnected/400. -/
theorem disconnect_twice_safe (st : Option String) :
    (disconnectHandler st).1 = none ∧
    disconnectHandler ((disconnectHandler st).1) =
      (none, ⟨200, .obj [("success", .bool true)]⟩) :=
  ⟨rfl, rfl⟩

/-- C4 counterexample: the normalized record of a concrete account has no
field named `balance` (the code emits `balances`). -/
theorem account_balance_field_counterexample :
    List.lookup "balance"
      (normalizeAccount ⟨"acc1234", "Checking", 100, none, none, none, none⟩)
      = none ∧
    (List.lookup "balances"
      (normalizeAccount ⟨"acc1234", "Checking", 100, none, none, none, none⟩)).isSome
      = true :=
  ⟨rfl, rfl⟩

/-- C4 amended: every normalized account record has exactly the fields
id, name, mask, balances, type, institution, in that order, and the object
stored under the `balances` key has exactly the subfields current and
available. -/
theorem normalizeAccount_shape (acc : SFAccount) :
    (normalizeAccount acc).map Prod.fst =
      ["id", "name", "mask", "balances", "type", "institution"] ∧
    (List.lookup "balances" (normalizeAccount acc)).map objKeys =
      some ["current", "available"] :=
  ⟨rfl, rfl⟩

/-- C6: the list emitted by GET /api/transactions is sorted by date most
recent first: every adjacent pair of entries is non-increasing in date. -/
theorem transactions_sorted_desc (accounts : List SFAccount) (i : Nat)
    (h : i + 1 < (transactionsPipeline accounts).length) :
    ((transactionsPipeline accounts).getD (i + 1) dummyTx).date ≤
    ((transactionsPipeline accounts).getD i dummyTx).date := by
  have hp : (transactionsPipeline accounts).Pairwise
      (fun a b => decide (b.date ≤ a.date) = true) := by
    unfold transactionsPipeline sortTransactions
    apply List.sorted_mergeSort
    · intro a b c h1 h2
      simp only [decide_eq_true_eq] at h1 h2 ⊢
      omega
    · intro a b
      simp only [Bool.or_eq_true, decide_eq_true_eq]
      omega
  have hi : i < (transactionsPipeline accounts).length := Nat.lt_of_succ_lt h
  have hr := List.pairwise_iff_get.mp hp ⟨i, hi⟩ ⟨i + 1, h⟩
    (by simp [Fin.lt_def])
  rw [List.getD_eq_getElem _ _ h, List.getD_eq_getElem _ _ hi]
  simpa [List.get_eq_getElem] using of_decide_eq_true hr

/-- C1 witness: the amended theorem at the concrete description
"utility gas". -/
theorem gas_never_service_witness :
    containsStr "gas" (jsToLower "utility gas") = true ∧
    (categorizeTransaction "utility gas" ≠ ["Service"] ∧
     (categorizeTransaction "utility gas" = ["Food and Drink"] ∨
      categorizeTransaction "utility gas" = ["Shops"] ∨
      categorizeTransaction "utility gas" = ["Travel"])) :=
  ⟨by decide, gas_never_service "utility gas" (by decide)⟩

/-- C6 witness: the sorting theorem at the concrete response
`sampleAccounts`, between positions 0 and 1. -/
theorem transactions_sorted_desc_witness :
    0 + 1 < (transactionsPipeline sampleAccounts).length ∧
    ((transactionsPipeline sampleAccounts).getD (0 + 1) dummyTx).date ≤
    ((transactionsPipeline sampleAccounts).getD 0 dummyTx).date := by
  have hlen : 0 + 1 < (transactionsPipeline sampleAccounts).length := by
    simp only [transactionsPipeline, sortTransactions, List.length_mergeSort]
    decide
  exact ⟨hlen, transactions_sorted_desc sampleAccounts 0 hlen⟩

/-- C7: when a GET /api/accounts or GET /api/transactions request ends up
with no credential — none held, and either no auto-connect source is
configured or the auto-connect claim failed — both handlers answer 400;
being total functions of their oracles, they cannot crash or throw. -/
theorem read_endpoints_notConnected_400 (cfg : Config)
    (claimResult : Option String) (fetchA fetchT : Option (List SFAccount))
    (h : cfg.setupToken = none ∨ claimResult = none) :
    (getAccountsHandler cfg claimResult fetchA none).2.status = 400 ∧
    (getTransactionsHandler cfg claimResult fetchT none).2.status = 400 := by
  have hst : optFalsy (autoConnect cfg claimResult none) = true := by
    rcases h with h | h
    · simp [autoConnect, h, optFalsy]
    · subst h
      unfold autoConnect
      split <;> rfl
  constructor
  · simp [getAccountsHandler, hst]
  · simp [getTransactionsHandler, hst]

/-- C7 witness: the theorem with no credential, no configured setup token
and a failed (absent) claim result. -/
theorem read_endpoints_notConnected_400_witness :
    ((⟨none⟩ : Config).setupToken = none ∨ (none : Option String) = none) ∧
    ((getAccountsHandler ⟨none⟩ none none none).2.status = 400 ∧
     (getTransactionsHandler ⟨none⟩ none none none).2.status = 400) :=
  ⟨Or.inl rfl,
   read_endpoints_notConnected_400 ⟨none⟩ none none none (Or.inl rfl)⟩

/-- C8: normalization emits the negation of the provider amount, so a
provider-native debit (negative SimpleFIN amount) is reported with
positive sign. -/
theorem amount_sign_normalized (accountId : String) (tx : SFTx) :
    (normTx accountId tx).amount = -tx.amount ∧
    (tx.amount < 0 → 0 < (normTx accountId tx).amount) := by
  refine ⟨rfl, ?_⟩
  intro h
  simp only [normTx]
  omega

/-- C8 witness: a concrete debit of -5 is emitted as a positive amount. -/
theorem amount_sign_normalized_witness :
    0 < (normTx "act-0001" sampleDebit).amount :=
  (amount_sign_normalized "act-0001" sampleDebit).2 (by decide)

theorem getAccountsHandler_fst (cfg : Config) (claimResult : Option String)
    (fetchResult : Option (List SFAccount)) (st : Option String) :
    (getAccountsHandler cfg claimResult fetchResult st).1 =
      autoConnect cfg claimResult st := by
  simp only [getAccountsHandler]
  split
  · rfl
  · cases fetchResult <;> rfl

theorem getTransactionsHandler_fst (cfg : Config)
    (claimResult : Option String) (fetchResult : Option (List SFAccount))
    (st : Option String) :
    (getTransactionsHandler cfg claimResult fetchResult st).1 =
      autoConnect cfg claimResult st := by
  simp only [getTransactionsHandler]
  split
  · rfl
  · cases fetchResult <;> rfl

theorem autoConnect_of_held (cfg : Config) (claimResult : Option String)
    (u : String) (hheld : optFalsy (some u) = false) :
    autoConnect cfg claimResult (some u) = some u := by
  simp [autoConnect, hheld]

/-- C9: a failed connect attempt never corrupts the credential slot: POST
/api/connect leaves the stored access URL unchanged whenever the claim
result is falsy, and the handlers that auto-connect (accounts,
transactions, exchange-token) never overwrite a held (truthy) credential,
whatever the claim result. -/
theorem credential_slot_not_corrupted (cfg : Config)
    (bodyToken claimResult claimResult' : Option String)
    (fetchA fetchT : Option (List SFAccount)) (st : Option String)
    (u : String) (hfail : optFalsy claimResult = true)
    (hheld : optFalsy (some u) = false) :
    (connectHandler cfg bodyToken claimResult st).1 = st ∧
    (getAccountsHandler cfg claimResult' fetchA (some u)).1 = some u ∧
    (getTransactionsHandler cfg claimResult' fetchT (some u)).1 = some u ∧
    (exchangeTokenHandler cfg claimResult' (some u)).1 = some u := by
  refine ⟨?_, ?_, ?_, ?_⟩
  · simp only [connectHandler]
    split_ifs <;> rfl
  · rw [getAccountsHandler_fst]
    exact autoConnect_of_held cfg claimResult' u hheld
  · rw [getTransactionsHandler_fst]
    exact autoConnect_of_held cfg claimResult' u hheld
  · simp [exchangeTokenHandler, hheld]

/-- C9 witness: the theorem at a configured setup token, a failed claim
and a held access URL. -/
theorem credential_slot_not_corrupted_witness :
    optFalsy (none : Option String) = true ∧
    optFalsy (some "https://bridge.example/access") = false ∧
    ((connectHandler ⟨some "tok"⟩ none none
        (some "https://bridge.example/access")).1 =
      some "https://bridge.example/access" ∧
     (getAccountsHandler ⟨some "tok"⟩ none none
        (some "https://bridge.example/access")).1 =
      some "https://bridge.example/access" ∧
     (getTransactionsHandler ⟨some "tok"⟩ none none
        (some "https://bridge.example/access")).1 =
      some "https://bridge.example/access" ∧
     (exchangeTokenHandler ⟨some "tok"⟩ none
        (some "https://bridge.example/access")).1 =
      some "https://bridge.example/access") :=
  ⟨rfl, rfl,
   credential_slot_not_corrupted ⟨some "tok"⟩ none none none none none
     (some "https://bridge.example/access") "https://bridge.example/access"
     rfl rfl⟩

theorem foldl_flattenStep (accounts : List SFAccount) (init : List Tx) :
    accounts.foldl flattenStep init =
      init ++ accounts.foldl flattenStep [] := by
  induction accounts generalizing init with
  | nil => simp
  | cons a rest ih =>
    have hstep : ∀ acc : List Tx, flattenStep acc a = acc ++ flattenStep [] a := by
      intro acc
      cases h : a.transactions <;> simp [flattenStep, h]
    simp only [List.foldl_cons]
    rw [ih (flattenStep init a), ih (flattenStep [] a), hstep init,
      List.append_assoc]

theorem flattenTransactions_cons (a : SFAccount) (rest : List SFAccount) :
    flattenTransactions (a :: rest) =
      flattenStep [] a ++ flattenTransactions rest := by
  simp only [flattenTransactions, List.foldl_cons]
  exact foldl_flattenStep rest (flattenStep [] a)

theorem mem_flattenStep (a : SFAccount) (t : Tx) :
    t ∈ flattenStep [] a ↔
      ∃ l, a.transactions = some l ∧ ∃ tx ∈ l, t = normTx a.id tx := by
  unfold flattenStep
  cases h : a.transactions with
  | none => simp
  | some txs => simp [List.mem_map, eq_comm]

/-- C10: the flattening step preserves provenance and completeness: a
normalized transaction occurs in the flattened list exactly when one of
the provider accounts carrying a `transactions` field contains its source
transaction, and its `account_id` is that account's id; accounts without
a `transactions` field contribute nothing. -/
theorem flatten_provenance_complete (accounts : List SFAccount) (t : Tx) :
    t ∈ flattenTransactions accounts ↔
      ∃ a ∈ accounts, ∃ l, a.transactions = some l ∧
        ∃ tx ∈ l, t = normTx a.id tx ∧ t.account_id = a.id := by
  induction accounts with
  | nil => simp [flattenTransactions]
  | cons a rest ih =>
    rw [flattenTransactions_cons, List.mem_append, mem_flattenStep, ih]
    constructor
    · rintro (⟨l, hl, tx, htxmem, rfl⟩ | ⟨b, hb, l, hl, tx, htxmem, rfl, hid⟩)
      · exact ⟨a, List.mem_cons_self a rest, l, hl, tx, htxmem, rfl, rfl⟩
      · exact ⟨b, List.mem_cons_of_mem a hb, l, hl, tx, htxmem, rfl, hid⟩
    · rintro ⟨b, hb, l, hl, tx, htxmem, rfl, hid⟩
      rcases List.mem_cons.mp hb with rfl | hb'
      · exact Or.inl ⟨l, hl, tx, htxmem, rfl⟩
      · exact Or.inr ⟨b, hb', l, hl, tx, htxmem, rfl, hid⟩

end Spend
